import Mathlib

/-!
Verification of the class-based-view layer and the greeting demo app of the
FlaskTemplate repository.  The Python classes in `app/views/__init__.py` are
embedded as Lean structures whose fields are the overridable attributes and
hook results of a concrete subclass; the methods become Lean functions that
return an `Except Err` value (Python exceptions) together with a trace of
observable side effects (flashed messages, ORM saves/deletes, issued
redirects) and the produced response.
-/

/-- Errors raised by the embedded code: `ImproperlyConfigured` (a subclass of
`NotImplementedError` in the source), Python `KeyError` from a missing dict
key, and Python `AttributeError` from reading an unset attribute. -/
inductive Err where
  | improperlyConfigured : String → Err
  | keyError : String → Err
  | attributeError : String → Err
deriving DecidableEq, Repr

/-- A persistent record ("model object").  `query_session` embeds the value of
`obj.query.session`, the session object reachable from the record, identified
by a number. -/
structure Obj where
  payload : String
  query_session : Nat
deriving DecidableEq, Repr

/-- A model class, exposing the fetch-all call `model.query.all()`. -/
structure Model where
  query_all : List Obj
deriving DecidableEq, Repr

/-- A bound form instance: the submitted data, the result of
`validate_on_submit()`, and the record bound via the `obj` keyword
(absent for a plain `form_class()` construction). -/
structure Form where
  data : List (String × String)
  validate_on_submit : Bool
  obj : Option Obj
deriving DecidableEq, Repr

/-- A value stored in a render context. -/
inductive Val where
  | str : String → Val
  | view : Val
  | kwargsVal : List (String × String) → Val
  | formVal : Option Form → Val
  | objVal : Obj → Val
  | objListVal : List Obj → Val
deriving DecidableEq, Repr

/-- A render context: a Python dict from string keys to values. -/
abbrev Context := List (String × Val)

/-- Dict lookup (`d[k]` when the key is present, else `None`). -/
def dictLookup : Context → String → Option Val
  | [], _ => none
  | p :: d, k => if p.1 = k then some p.2 else dictLookup d k

/-- Dict assignment `d[k] = v`: replace the value at an existing key in
place, otherwise append the new pair. -/
def dictInsert : Context → String → Val → Context
  | [], k, v => [(k, v)]
  | p :: d, k, v => if p.1 = k then (k, v) :: d else p :: dictInsert d k v

/-- Dict update `d.update(e)`: assign every pair of `e` in order. -/
def dictUpdate (d : Context) (e : Context) : Context :=
  e.foldl (fun acc p => dictInsert acc p.1 p.2) d

/-- Observable side effects, in the order they happen: a call to
`flash(message, category)`, a `form.save_obj(session)` or
`form.delete_obj(session)` call on a record and a session, and a call to
`redirect(location)`. -/
inductive Event where
  | flash : String → String → Event
  | save : Obj → Nat → Event
  | delete : Obj → Nat → Event
  | redirected : String → Event
deriving DecidableEq, Repr

/-- The produced HTTP response: a redirect to a location, or a rendered
template with its context. -/
inductive Response where
  | redirect : String → Response
  | render : String → Context → Response
deriving DecidableEq, Repr

/-- `FlashMessageMixin.flash_message(category, message)`: flash the message
if it is truthy (not `None` and not the empty string). -/
def FlashMessageMixin.flash_message (category : String) (message : Option String) : List Event :=
  match message with
  | none => []
  | some m => if m = "" then [] else [Event.flash m category]

/-- Truthiness of an optional message string, as Python evaluates it. -/
def msgTruthy : Option String → Bool
  | none => false
  | some m => !(m = "")

/-- The state every `View` instance carries: the class name (used in
configuration-error messages) and the positional and keyword arguments of the
current request, stored by `dispatch_request`. -/
structure ViewBase where
  className : String
  args : List String
  kwargs : List (String × String)
deriving DecidableEq, Repr

/-- `View.dispatch`: the base pre-dispatch hook, which returns `None`. -/
def View.dispatch : ViewBase → Option Response := fun _ => none

/-- `View.dispatch_request(*args, **kwargs)`: store `args` and `kwargs` on the
instance, then return `self.dispatch() or super().dispatch_request(...)`.
The verb handler chosen by the underlying `MethodView` is passed in as
`handler`; the pre-dispatch hook of the concrete class as `hook`.  A
`Response` is always truthy, so a non-`None` hook result short-circuits. -/
def View.dispatch_request (v : ViewBase) (hook : ViewBase → Option Response)
    (handler : ViewBase → Except Err (List Event × Response))
    (args : List String) (kwargs : List (String × String)) :
    Except Err (List Event × Response) :=
  let v2 : ViewBase := { v with args := args, kwargs := kwargs }
  match hook v2 with
  | some r => .ok ([], r)
  | none => handler v2

/-- A concrete `TemplateView` subclass: the `template_name` attribute, an
optional `get_template_names()` override (modelled by the value it returns),
and the pairs contributed by the `get_context()` hook (the base hook
returns the empty dict). -/
structure TemplateView extends ViewBase where
  template_name : Option String
  get_template_names_ov : Option String
  get_context : Context
deriving DecidableEq, Repr

/-- `TemplateView.get_template_names`: an override wins; otherwise
`template_name` must be declared, else `ImproperlyConfigured` is raised. -/
def TemplateView.get_template_names (v : TemplateView) : Except Err String :=
  match v.get_template_names_ov with
  | some s => .ok s
  | none =>
    match v.template_name with
    | none => .error (.improperlyConfigured
        (v.className ++ " must define either `template_name` or `get_template_names()`"))
    | some t => .ok t

/-- `TemplateView.get_default_context`: the dict of the view instance and the
stored kwargs, updated with the pairs from `get_context()`. -/
def TemplateView.get_default_context (v : TemplateView) : Context :=
  dictUpdate [("view", Val.view), ("kwargs", Val.kwargsVal v.kwargs)] v.get_context

/-- `TemplateView.get`: render the template named by `get_template_names()`
with the default context. -/
def TemplateView.get (v : TemplateView) : Except Err (List Event × Response) := do
  let t ← v.get_template_names
  .ok ([], Response.render t v.get_default_context)

/-- A concrete `RedirectView` subclass: the `url` attribute, an optional
`get_url()` override, and the `success_message` attribute of
`FlashMessageMixin` returned by `get_success_message()`. -/
structure RedirectView extends ViewBase where
  url : Option String
  get_url_ov : Option String
  success_message : Option String
deriving DecidableEq, Repr

/-- `RedirectView.get_url`: an override wins; otherwise `url` must be
declared, else `ImproperlyConfigured` is raised. -/
def RedirectView.get_url (v : RedirectView) : Except Err String :=
  match v.get_url_ov with
  | some s => .ok s
  | none =>
    match v.url with
    | none => .error (.improperlyConfigured
        (v.className ++ " must define either `url` or `get_url()`"))
    | some u => .ok u

/-- `RedirectView.get`: flash the success message, then redirect to
`get_url()`. -/
def RedirectView.get (v : RedirectView) : Except Err (List Event × Response) := do
  let ev := FlashMessageMixin.flash_message "success" v.success_message
  let u ← v.get_url
  .ok (ev ++ [Event.redirected u], Response.redirect u)

/-- A concrete `ListView` subclass: the `model` attribute, an optional
`get_object_list()` override, and `context_object_list_name`
(class default `"object_list"`). -/
structure ListView extends TemplateView where
  model : Option Model
  get_object_list_ov : Option (List Obj)
  context_object_list_name : String
deriving DecidableEq, Repr

/-- `ListView.get_context_object_list_name`. -/
def ListView.get_context_object_list_name (v : ListView) : String :=
  v.context_object_list_name

/-- `ListView.get_object_list`: an override wins; otherwise `model` must be
declared and `model.query.all()` is returned, else `ImproperlyConfigured`. -/
def ListView.get_object_list (v : ListView) : Except Err (List Obj) :=
  match v.get_object_list_ov with
  | some l => .ok l
  | none =>
    match v.model with
    | none => .error (.improperlyConfigured
        (v.className ++ " must define either `model` or `get_object_list()`"))
    | some m => .ok m.query_all

/-- `ListView.get_default_context`: the parent context with the object list
assigned under `get_context_object_list_name()`. -/
def ListView.get_default_context (v : ListView) : Except Err Context := do
  let l ← v.get_object_list
  .ok (dictInsert v.toTemplateView.get_default_context
        v.get_context_object_list_name (Val.objListVal l))

/-- `ListView.get`, as inherited from `TemplateView` with the context method
resolved to `ListView.get_default_context`. -/
def ListView.get (v : ListView) : Except Err (List Event × Response) := do
  let t ← v.toTemplateView.get_template_names
  let c ← v.get_default_context
  .ok ([], Response.render t c)

/-- A concrete `DetailView` subclass: `context_object_name` (class default
`"object"`) and the mandatory `get_object()` override (modelled by the
record it returns). -/
structure DetailView extends TemplateView where
  context_object_name : String
  get_object_ov : Option Obj
deriving DecidableEq, Repr

/-- `DetailView.get_context_object_name`. -/
def DetailView.get_context_object_name (v : DetailView) : String :=
  v.context_object_name

/-- `DetailView.get_object`: must be overwritten by the subclass, else
`ImproperlyConfigured` is raised. -/
def DetailView.get_object (v : DetailView) : Except Err Obj :=
  match v.get_object_ov with
  | some o => .ok o
  | none => .error (.improperlyConfigured
      (v.className ++ " must define `get_object()`"))

/-- A concrete `FormView` subclass: `context_form_name` (class default
`"form"`), the form instance produced by `get_form()` (the source calls
`self.form_class()`), the `success_url` attribute, an optional
`get_success_url()` override, the mixin `success_message`, the results of
the `form_valid()` and `form_invalid()` hooks (the base hooks return
`None`), and the mutable `self.form` attribute, unset until `get`/`post`
assign it. -/
structure FormView extends TemplateView where
  context_form_name : String
  form_init : Form
  success_url : Option String
  get_success_url_ov : Option String
  success_message : Option String
  form_valid_hook : Option Response
  form_invalid_hook : Option Response
  form : Option Form
deriving DecidableEq, Repr

/-- `FormView.get_success_url`: an override wins; otherwise `success_url`
must be declared, else `ImproperlyConfigured` is raised. -/
def FormView.get_success_url (v : FormView) : Except Err String :=
  match v.get_success_url_ov with
  | some s => .ok s
  | none =>
    match v.success_url with
    | none => .error (.improperlyConfigured
        (v.className ++ " must define either `success_url` or `get_success_url()`"))
    | some u => .ok u

/-- `FormView.get_context_form_name`. -/
def FormView.get_context_form_name (v : FormView) : String :=
  v.context_form_name

/-- `FormView.get_default_context`: the parent context with `self.form`
assigned under `get_context_form_name()`. -/
def FormView.get_default_context (v : FormView) : Context :=
  dictInsert v.toTemplateView.get_default_context
    v.get_context_form_name (Val.formVal v.form)

/-- `FormView.get_form`: return `self.form_class()`. -/
def FormView.get_form (v : FormView) : Form := v.form_init

/-- `FormView.form_valid_process`: the form is valid, so redirect to the
success URL. -/
def FormView.form_valid_process (v : FormView) : Except Err (List Event × Response) := do
  let u ← v.get_success_url
  .ok ([Event.redirected u], Response.redirect u)

/-- `FormView.form_invalid_process`: the form is invalid, so show it again
using `super().get(*self.args, **self.kwargs)`, which is `TemplateView.get`
with the context method resolved to `FormView.get_default_context`. -/
def FormView.form_invalid_process (v : FormView) : Except Err (List Event × Response) := do
  let t ← v.toTemplateView.get_template_names
  .ok ([], Response.render t v.get_default_context)

/-- `FormView.get`: set `self.form = self.get_form()`, then render as
`TemplateView.get` does, with the form in the context. -/
def FormView.get (v : FormView) : Except Err (FormView × List Event × Response) := do
  let v2 : FormView := { v with form := some v.get_form }
  let t ← v2.toTemplateView.get_template_names
  .ok (v2, [], Response.render t v2.get_default_context)

/-- `FormView.post`: set `self.form = self.get_form()`.  If
`form.validate_on_submit()`, flash the success message and return
`self.form_valid() or self.form_valid_process()`; otherwise return
`self.form_invalid() or self.form_invalid_process()`. -/
def FormView.post (v : FormView) : Except Err (FormView × List Event × Response) := do
  let f := v.get_form
  let v2 : FormView := { v with form := some f }
  if f.validate_on_submit then
    let ev := FlashMessageMixin.flash_message "success" v2.success_message
    match v2.form_valid_hook with
    | some r => .ok (v2, ev, r)
    | none =>
      let (ev2, r) ← v2.form_valid_process
      .ok (v2, ev ++ ev2, r)
  else
    match v2.form_invalid_hook with
    | some r => .ok (v2, [], r)
    | none =>
      let (ev2, r) ← v2.form_invalid_process
      .ok (v2, ev2, r)

/-- A concrete `CreateView` subclass (`class CreateView(FormView, DetailView)`).
Its fields are the union of the configurable surface of its bases, with
`form_class_obj` standing for the `form_class(obj=...)` constructor used by
the overridden `get_form()`, and the mutable attributes `form` and
`object`. -/
structure CreateView where
  className : String
  args : List String
  kwargs : List (String × String)
  template_name : Option String
  get_template_names_ov : Option String
  get_context : Context
  context_form_name : String
  success_url : Option String
  get_success_url_ov : Option String
  success_message : Option String
  form_valid_hook : Option Response
  form_invalid_hook : Option Response
  context_object_name : String
  get_object_ov : Option Obj
  form_class_obj : Obj → Form
  form : Option Form
  object : Option Obj

/-- `DetailView.get_object` as inherited by `CreateView`. -/
def CreateView.get_object (v : CreateView) : Except Err Obj :=
  match v.get_object_ov with
  | some o => .ok o
  | none => .error (.improperlyConfigured
      (v.className ++ " must define `get_object()`"))

/-- `CreateView.get_form`: return `self.form_class(obj=self.get_object())`. -/
def CreateView.get_form (v : CreateView) : Except Err Form := do
  let o ← v.get_object
  .ok (v.form_class_obj o)

/-- `FormView.get_success_url` as inherited by `CreateView`. -/
def CreateView.get_success_url (v : CreateView) : Except Err String :=
  match v.get_success_url_ov with
  | some s => .ok s
  | none =>
    match v.success_url with
    | none => .error (.improperlyConfigured
        (v.className ++ " must define either `success_url` or `get_success_url()`"))
    | some u => .ok u

/-- `CreateView.get_db_session`: return `self.form.obj.query.session`;
reading an unset attribute raises `AttributeError`. -/
def CreateView.get_db_session (v : CreateView) : Except Err Nat :=
  match v.form with
  | none => .error (.attributeError "form")
  | some f =>
    match f.obj with
    | none => .error (.attributeError "obj")
    | some o => .ok o.query_session

/-- `CreateView.form_valid_process`: call
`self.form.save_obj(self.get_db_session())`, set
`self.object = self.form.obj`, then continue with
`super().form_valid_process()`, the `FormView` redirect to the success
URL. -/
def CreateView.form_valid_process (v : CreateView) :
    Except Err (CreateView × List Event × Response) := do
  match v.form with
  | none => .error (.attributeError "form")
  | some f =>
    let s ← v.get_db_session
    match f.obj with
    | none => .error (.attributeError "obj")
    | some w =>
      let v2 : CreateView := { v with object := some w }
      let u ← v2.get_success_url
      .ok (v2, [Event.save w s, Event.redirected u], Response.redirect u)

/-- The render context of a `CreateView`: by the method resolution order
`CreateView, FormView, FlashMessageMixin, DetailView, TemplateView`, this is
`FormView.get_default_context` calling `DetailView.get_default_context`
calling `TemplateView.get_default_context`, so the base context gains the
record under `get_context_object_name()` and then the form under
`get_context_form_name()`. -/
def CreateView.get_default_context (v : CreateView) : Except Err Context := do
  let o ← v.get_object
  let base := dictUpdate [("view", Val.view), ("kwargs", Val.kwargsVal v.kwargs)] v.get_context
  let c1 := dictInsert base v.context_object_name (Val.objVal o)
  .ok (dictInsert c1 v.context_form_name (Val.formVal v.form))

/-- `TemplateView.get_template_names` as inherited by `CreateView`. -/
def CreateView.get_template_names (v : CreateView) : Except Err String :=
  match v.get_template_names_ov with
  | some s => .ok s
  | none =>
    match v.template_name with
    | none => .error (.improperlyConfigured
        (v.className ++ " must define either `template_name` or `get_template_names()`"))
    | some t => .ok t

/-- `FormView.form_invalid_process` as inherited by `CreateView`: its
`super().get(...)` resolves to `DetailView.get`, which sets
`self.object = self.get_object()` and then renders with the resolved
context. -/
def CreateView.form_invalid_process (v : CreateView) :
    Except Err (CreateView × List Event × Response) := do
  let o ← v.get_object
  let v2 : CreateView := { v with object := some o }
  let t ← v2.get_template_names
  let c ← v2.get_default_context
  .ok (v2, [], Response.render t c)

/-- `FormView.post` as inherited by `CreateView`, with `get_form` and
`form_valid_process` resolved to the `CreateView` overrides. -/
def CreateView.post (v : CreateView) : Except Err (CreateView × List Event × Response) := do
  let f ← v.get_form
  let v2 : CreateView := { v with form := some f }
  if f.validate_on_submit then
    let ev := FlashMessageMixin.flash_message "success" v2.success_message
    match v2.form_valid_hook with
    | some r => .ok (v2, ev, r)
    | none =>
      let (v3, ev2, r) ← v2.form_valid_process
      .ok (v3, ev ++ ev2, r)
  else
    match v2.form_invalid_hook with
    | some r => .ok (v2, [], r)
    | none =>
      let (v3, ev2, r) ← v2.form_invalid_process
      .ok (v3, ev2, r)

/-- A concrete `DeleteView` subclass (`class DeleteView(FormView, DetailView)`).
Same configurable surface as `CreateView`; only `form_valid_process`
differs. -/
structure DeleteView where
  className : String
  args : List String
  kwargs : List (String × String)
  template_name : Option String
  get_template_names_ov : Option String
  get_context : Context
  context_form_name : String
  success_url : Option String
  get_success_url_ov : Option String
  success_message : Option String
  form_valid_hook : Option Response
  form_invalid_hook : Option Response
  context_object_name : String
  get_object_ov : Option Obj
  form_class_obj : Obj → Form
  form : Option Form
  object : Option Obj

/-- `DetailView.get_object` as inherited by `DeleteView`. -/
def DeleteView.get_object (v : DeleteView) : Except Err Obj :=
  match v.get_object_ov with
  | some o => .ok o
  | none => .error (.improperlyConfigured
      (v.className ++ " must define `get_object()`"))

/-- `DeleteView.get_form`: return `self.form_class(obj=self.get_object())`. -/
def DeleteView.get_form (v : DeleteView) : Except Err Form := do
  let o ← v.get_object
  .ok (v.form_class_obj o)

/-- `FormView.get_success_url` as inherited by `DeleteView`. -/
def DeleteView.get_success_url (v : DeleteView) : Except Err String :=
  match v.get_success_url_ov with
  | some s => .ok s
  | none =>
    match v.success_url with
    | none => .error (.improperlyConfigured
        (v.className ++ " must define either `success_url` or `get_success_url()`"))
    | some u => .ok u

/-- `DeleteView.get_db_session`: return `self.form.obj.query.session`. -/
def DeleteView.get_db_session (v : DeleteView) : Except Err Nat :=
  match v.form with
  | none => .error (.attributeError "form")
  | some f =>
    match f.obj with
    | none => .error (.attributeError "obj")
    | some o => .ok o.query_session

/-- `DeleteView.form_valid_process`: call
`self.form.delete_obj(self.get_db_session())`, set `self.object = None`,
then continue with `super().form_valid_process()`, the `FormView` redirect
to the success URL. -/
def DeleteView.form_valid_process (v : DeleteView) :
    Except Err (DeleteView × List Event × Response) := do
  match v.form with
  | none => .error (.attributeError "form")
  | some f =>
    let s ← v.get_db_session
    match f.obj with
    | none => .error (.attributeError "obj")
    | some w =>
      let v2 : DeleteView := { v with object := none }
      let u ← v2.get_success_url
      .ok (v2, [Event.delete w s, Event.redirected u], Response.redirect u)

/-- `TemplateView.get_template_names` as inherited by `DeleteView`. -/
def DeleteView.get_template_names (v : DeleteView) : Except Err String :=
  match v.get_template_names_ov with
  | some s => .ok s
  | none =>
    match v.template_name with
    | none => .error (.improperlyConfigured
        (v.className ++ " must define either `template_name` or `get_template_names()`"))
    | some t => .ok t

/-- The render context of a `DeleteView`, resolved as for `CreateView`. -/
def DeleteView.get_default_context (v : DeleteView) : Except Err Context := do
  let o ← v.get_object
  let base := dictUpdate [("view", Val.view), ("kwargs", Val.kwargsVal v.kwargs)] v.get_context
  let c1 := dictInsert base v.context_object_name (Val.objVal o)
  .ok (dictInsert c1 v.context_form_name (Val.formVal v.form))

/-- `FormView.form_invalid_process` as inherited by `DeleteView`, with
`super().get(...)` resolving to `DetailView.get`. -/
def DeleteView.form_invalid_process (v : DeleteView) :
    Except Err (DeleteView × List Event × Response) := do
  let o ← v.get_object
  let v2 : DeleteView := { v with object := some o }
  let t ← v2.get_template_names
  let c ← v2.get_default_context
  .ok (v2, [], Response.render t c)

/-- `FormView.post` as inherited by `DeleteView`, with `get_form` and
`form_valid_process` resolved to the `DeleteView` overrides. -/
def DeleteView.post (v : DeleteView) : Except Err (DeleteView × List Event × Response) := do
  let f ← v.get_form
  let v2 : DeleteView := { v with form := some f }
  if f.validate_on_submit then
    let ev := FlashMessageMixin.flash_message "success" v2.success_message
    match v2.form_valid_hook with
    | some r => .ok (v2, ev, r)
    | none =>
      let (v3, ev2, r) ← v2.form_valid_process
      .ok (v3, ev ++ ev2, r)
  else
    match v2.form_invalid_hook with
    | some r => .ok (v2, [], r)
    | none =>
      let (v3, ev2, r) ← v2.form_invalid_process
      .ok (v3, ev2, r)

/-- The HTTP method of a demo-app request. -/
inductive Method where
  | get
  | post
deriving DecidableEq, Repr

/-- A demo-app request: the method, the form body (`request.form`) and the
query string (`request.args`). -/
structure Request where
  method : Method
  form : List (String × String)
  args : List (String × String)
deriving DecidableEq, Repr

/-- Lookup in a string-valued mapping such as `request.form` or
`request.args`. -/
def assocLookup : List (String × String) → String → Option String
  | [], _ => none
  | p :: l, k => if p.1 = k then some p.2 else assocLookup l k

/-- The `greeting_user` route handler of the demo app: on POST, read
`request.form["user_name"]` (raising `KeyError` when absent); otherwise read
`request.args.get("user_name", "")`; then render `greeting.html` with
`greeting` and `user_name`. -/
def greeting_user (greeting : String) (req : Request) : Except Err Response :=
  match req.method with
  | .post =>
    match assocLookup req.form "user_name" with
    | none => .error (.keyError "user_name")
    | some u => .ok (Response.render "greeting.html"
        [("greeting", Val.str greeting), ("user_name", Val.str u)])
  | .get =>
    let u := (assocLookup req.args "user_name").getD ""
    .ok (Response.render "greeting.html"
        [("greeting", Val.str greeting), ("user_name", Val.str u)])

/-- The demo-app routing table: `/` maps to `greeting_user` with the default
`greeting="Hello"`, and `/<greeting>` passes the captured path segment. -/
def route_greeting (path : List String) (req : Request) : Option (Except Err Response) :=
  match path with
  | [] => some (greeting_user "Hello" req)
  | [g] => some (greeting_user g req)
  | _ => none

/-- Looking up the key just assigned by `dictInsert` yields the assigned
value. -/
theorem dictLookup_dictInsert_self (d : Context) (k : String) (v : Val) :
    dictLookup (dictInsert d k v) k = some v := by
  induction d with
  | nil => simp [dictInsert, dictLookup]
  | cons p d ih =>
    by_cases h : p.1 = k
    · simp [dictInsert, h, dictLookup]
    · simp [dictInsert, h, dictLookup, ih]

/-- `dictInsert` leaves the value at every other key unchanged. -/
theorem dictLookup_dictInsert_ne (d : Context) (k q : String) (v : Val)
    (h : q ≠ k) :
    dictLookup (dictInsert d k v) q = dictLookup d q := by
  induction d with
  | nil => simp [dictInsert, dictLookup, Ne.symm h]
  | cons p d ih =>
    by_cases hp : p.1 = k
    · subst hp
      simp only [dictInsert, if_pos rfl, dictLookup]
      rw [if_neg (Ne.symm h), if_neg (Ne.symm h)]
    · simp only [dictInsert, hp, if_false, dictLookup, ih]

/-- `dictUpdate` leaves the value at a key absent from the update
unchanged. -/
theorem dictLookup_dictUpdate_not_mem (e : Context) (d : Context) (k : String)
    (h : k ∉ e.map Prod.fst) :
    dictLookup (dictUpdate d e) k = dictLookup d k := by
  induction e generalizing d with
  | nil => rfl
  | cons p e ih =>
    simp only [List.map_cons, List.mem_cons, not_or] at h
    have step : dictUpdate d (p :: e) = dictUpdate (dictInsert d p.1 p.2) e := rfl
    rw [step, ih _ h.2, dictLookup_dictInsert_ne _ _ _ _ h.1]

/-- When the keys of the update are distinct, every pair of the update is
found in the updated dict. -/
theorem dictLookup_dictUpdate_mem (e : Context) (d : Context) (p : String × Val)
    (hnd : (e.map Prod.fst).Nodup) (hp : p ∈ e) :
    dictLookup (dictUpdate d e) p.1 = some p.2 := by
  induction e generalizing d with
  | nil => cases hp
  | cons q e ih =>
    rw [List.map_cons, List.nodup_cons] at hnd
    have step : dictUpdate d (q :: e) = dictUpdate (dictInsert d q.1 q.2) e := rfl
    rcases List.mem_cons.mp hp with h | h
    · subst h
      rw [step, dictLookup_dictUpdate_not_mem e _ p.1 hnd.1,
        dictLookup_dictInsert_self]
    · rw [step]
      exact ih (dictInsert d q.1 q.2) hnd.2 h

/-- Bind on a successful `Except` computation reduces to the continuation. -/
theorem except_ok_bind {ε α β : Type} (a : α) (f : α → Except ε β) :
    (Except.ok a : Except ε α) >>= f = f a := rfl

/-- C9: the demo route handler satisfies the three specified cases: GET `/`
with no `user_name` renders greeting "Hello" and the empty name, GET
`/Hi?user_name=Bob` renders greeting "Hi" and name "Bob", and POST `/` with
form field `user_name=Alice` renders greeting "Hello" and name "Alice". -/
theorem greeting_user_demo_cases :
    route_greeting [] ⟨.get, [], []⟩ =
      some (.ok (Response.render "greeting.html"
        [("greeting", Val.str "Hello"), ("user_name", Val.str "")])) ∧
    route_greeting ["Hi"] ⟨.get, [], [("user_name", "Bob")]⟩ =
      some (.ok (Response.render "greeting.html"
        [("greeting", Val.str "Hi"), ("user_name", Val.str "Bob")])) ∧
    route_greeting [] ⟨.post, [("user_name", "Alice")], []⟩ =
      some (.ok (Response.render "greeting.html"
        [("greeting", Val.str "Hello"), ("user_name", Val.str "Alice")])) := by
  refine ⟨rfl, ?_, rfl⟩
  simp [route_greeting, greeting_user, assocLookup]

/-- C10: the demo handler treats a missing `user_name` asymmetrically: every
POST whose form body lacks the field raises `KeyError`, while every GET
without the query parameter falls back to the empty string. -/
theorem greeting_user_missing_name_asymmetry (g : String) (req : Request) :
    (req.method = .post → assocLookup req.form "user_name" = none →
      greeting_user g req = .error (.keyError "user_name")) ∧
    (req.method = .get → assocLookup req.args "user_name" = none →
      greeting_user g req = .ok (Response.render "greeting.html"
        [("greeting", Val.str g), ("user_name", Val.str "")])) := by
  obtain ⟨m, fm, qs⟩ := req
  constructor
  · intro hm hl
    simp only at hm
    subst hm
    simp only at hl
    simp [greeting_user, hl]
  · intro hm hl
    simp only at hm
    subst hm
    simp only at hl
    simp [greeting_user, hl]

/-- Witness for the missing-name asymmetry at concrete requests. -/
theorem greeting_user_missing_name_asymmetry_wit :
    greeting_user "Hello" ⟨.post, [("other", "x")], []⟩ = .error (.keyError "user_name") ∧
    greeting_user "Hi" ⟨.get, [], [("foo", "1")]⟩ = .ok (Response.render "greeting.html"
      [("greeting", Val.str "Hi"), ("user_name", Val.str "")]) :=
  ⟨(greeting_user_missing_name_asymmetry "Hello" ⟨.post, [("other", "x")], []⟩).1 rfl (by decide),
   (greeting_user_missing_name_asymmetry "Hi" ⟨.get, [], [("foo", "1")]⟩).2 rfl (by decide)⟩

/-- C1: for every `FormView` whose form validates on submit, whose
`form_valid()` hook returns no result, and whose success URL resolves,
`post()` returns a redirect to the value of `get_success_url()`. -/
theorem FormView.post_valid_redirects (v : FormView) (u : String)
    (hval : v.form_init.validate_on_submit = true)
    (hhook : v.form_valid_hook = none)
    (hurl : v.get_success_url = .ok u) :
    ∃ w ev, FormView.post v = .ok (w, ev, Response.redirect u) := by
  refine ⟨{ v with form := some v.form_init },
    FlashMessageMixin.flash_message "success" v.success_message ++ [Event.redirected u], ?_⟩
  have hurl2 : ({ v with form_valid_hook := none, form := some v.form_init } : FormView).get_success_url = .ok u := hurl
  simp [FormView.post, FormView.get_form, hval, hhook, FormView.form_valid_process, hurl2]
  rfl

/-- Witness: a concrete form view with a valid form redirects to its
success URL. -/
theorem FormView.post_valid_redirects_wit :
    ∃ w ev, FormView.post
      ⟨⟨⟨"NoteAdd", [], []⟩, some "note_form.html", none, []⟩, "form",
        ⟨[("title", "hello")], true, none⟩, some "/notes", none, some "saved",
        none, none, none⟩ =
      .ok (w, ev, Response.redirect "/notes") :=
  FormView.post_valid_redirects
    ⟨⟨⟨"NoteAdd", [], []⟩, some "note_form.html", none, []⟩, "form",
      ⟨[("title", "hello")], true, none⟩, some "/notes", none, some "saved",
      none, none, none⟩ "/notes" rfl rfl rfl

/-- C2: for every `FormView` whose form fails validation and whose
`form_invalid()` hook returns no result, `post()` re-renders the template
named by `get_template_names()` and the render context maps
`get_context_form_name()` to the very form instance bound in `post()`, so
the submitted values are preserved. -/
theorem FormView.post_invalid_rerenders_bound_form (v : FormView) (t : String)
    (hval : v.form_init.validate_on_submit = false)
    (hhook : v.form_invalid_hook = none)
    (ht : v.toTemplateView.get_template_names = .ok t) :
    ∃ w c, FormView.post v = .ok (w, [], Response.render t c) ∧
      dictLookup c (FormView.get_context_form_name v) =
        some (Val.formVal (some v.form_init)) := by
  refine ⟨{ v with form := some v.form_init },
    FormView.get_default_context { v with form := some v.form_init }, ?_, ?_⟩
  · have ht2 : ({ v with form := some v.form_init } : FormView).toTemplateView.get_template_names
        = .ok t := ht
    simp [FormView.post, FormView.get_form, hval, hhook, FormView.form_invalid_process, ht2]
    rfl
  · simp [FormView.get_default_context, FormView.get_context_form_name,
      dictLookup_dictInsert_self]

/-- Witness: a concrete form view with an invalid form re-renders its
template with the bound form in the context. -/
theorem FormView.post_invalid_rerenders_bound_form_wit :
    ∃ w c, FormView.post
      ⟨⟨⟨"NoteAdd", [], []⟩, some "note_form.html", none, []⟩, "form",
        ⟨[("title", "")], false, none⟩, some "/notes", none, some "saved",
        none, none, none⟩ =
      .ok (w, [], Response.render "note_form.html" c) ∧
      dictLookup c (FormView.get_context_form_name
        ⟨⟨⟨"NoteAdd", [], []⟩, some "note_form.html", none, []⟩, "form",
          ⟨[("title", "")], false, none⟩, some "/notes", none, some "saved",
          none, none, none⟩) =
        some (Val.formVal (some ⟨[("title", "")], false, none⟩)) :=
  FormView.post_invalid_rerenders_bound_form
    ⟨⟨⟨"NoteAdd", [], []⟩, some "note_form.html", none, []⟩, "form",
      ⟨[("title", "")], false, none⟩, some "/notes", none, some "saved",
      none, none, none⟩ "note_form.html" rfl rfl rfl

/-- C3: for every `RedirectView` whose URL resolves, `get()` returns a
redirect to the value of `get_url()`; the events before the redirect are:
exactly one flash, of the success message itself under the "success"
category, when `get_success_message()` is non-empty, and no event at all
when it is `None` or empty. -/
theorem RedirectView.get_flashes_once_then_redirects (v : RedirectView) (u : String)
    (hurl : v.get_url = .ok u) :
    ∃ fl, RedirectView.get v = .ok (fl ++ [Event.redirected u], Response.redirect u) ∧
      fl.length = (if msgTruthy v.success_message then 1 else 0) ∧
      (∀ m, v.success_message = some m → m ≠ "" → fl = [Event.flash m "success"]) ∧
      (msgTruthy v.success_message = false → fl = []) := by
  refine ⟨FlashMessageMixin.flash_message "success" v.success_message, ?_, ?_, ?_, ?_⟩
  · simp [RedirectView.get, hurl]
    rfl
  · cases h : v.success_message with
    | none => simp [FlashMessageMixin.flash_message, msgTruthy]
    | some m =>
      by_cases hm : m = ""
      · simp [FlashMessageMixin.flash_message, msgTruthy, hm]
      · simp [FlashMessageMixin.flash_message, msgTruthy, hm]
  · intro m hm hne
    simp [FlashMessageMixin.flash_message, hm, hne]
  · intro h
    cases hsm : v.success_message with
    | none => simp [FlashMessageMixin.flash_message]
    | some m =>
      rw [hsm] at h
      simp [msgTruthy] at h
      simp [FlashMessageMixin.flash_message, h]

/-- Witness: a concrete redirect view with the non-empty success message
"done" flashes exactly "done" under "success" once, then redirects. -/
theorem RedirectView.get_flashes_once_then_redirects_wit :
    ∃ fl, RedirectView.get ⟨⟨"GoHome", [], []⟩, some "/home", none, some "done"⟩ =
      .ok (fl ++ [Event.redirected "/home"], Response.redirect "/home") ∧
      fl.length = (if msgTruthy (some "done") then 1 else 0) ∧
      (∀ m, (some "done" : Option String) = some m → m ≠ "" →
        fl = [Event.flash m "success"]) ∧
      (msgTruthy (some "done") = false → fl = []) :=
  RedirectView.get_flashes_once_then_redirects
    ⟨⟨"GoHome", [], []⟩, some "/home", none, some "done"⟩ "/home" rfl

/-- C4: each view subclass that omits its required attribute or override
raises `ImproperlyConfigured` with a message naming the subclass when the
corresponding resolver runs, and conversely never raises it when the
attribute or override is supplied — for `get_template_names` on
`TemplateView`, `get_url` on `RedirectView`, `get_object_list` on
`ListView`, `get_object` on `DetailView` and `get_success_url` on
`FormView`. -/
theorem config_error_iff_missing_override :
    (∀ v : TemplateView, v.get_template_names_ov = none → v.template_name = none →
      v.get_template_names = .error (.improperlyConfigured
        (v.className ++ " must define either `template_name` or `get_template_names()`"))) ∧
    (∀ v : TemplateView, v.get_template_names_ov ≠ none ∨ v.template_name ≠ none →
      ∃ r, v.get_template_names = .ok r) ∧
    (∀ v : RedirectView, v.get_url_ov = none → v.url = none →
      v.get_url = .error (.improperlyConfigured
        (v.className ++ " must define either `url` or `get_url()`"))) ∧
    (∀ v : RedirectView, v.get_url_ov ≠ none ∨ v.url ≠ none → ∃ r, v.get_url = .ok r) ∧
    (∀ v : ListView, v.get_object_list_ov = none → v.model = none →
      v.get_object_list = .error (.improperlyConfigured
        (v.className ++ " must define either `model` or `get_object_list()`"))) ∧
    (∀ v : ListView, v.get_object_list_ov ≠ none ∨ v.model ≠ none →
      ∃ r, v.get_object_list = .ok r) ∧
    (∀ v : DetailView, v.get_object_ov = none →
      v.get_object = .error (.improperlyConfigured
        (v.className ++ " must define `get_object()`"))) ∧
    (∀ v : DetailView, v.get_object_ov ≠ none → ∃ r, v.get_object = .ok r) ∧
    (∀ v : FormView, v.get_success_url_ov = none → v.success_url = none →
      v.get_success_url = .error (.improperlyConfigured
        (v.className ++ " must define either `success_url` or `get_success_url()`"))) ∧
    (∀ v : FormView, v.get_success_url_ov ≠ none ∨ v.success_url ≠ none →
      ∃ r, v.get_success_url = .ok r) := by
  refine ⟨?_, ?_, ?_, ?_, ?_, ?_, ?_, ?_, ?_, ?_⟩
  · intro v h1 h2
    simp [TemplateView.get_template_names, h1, h2]
  · intro v h
    cases hov : v.get_template_names_ov with
    | some s => exact ⟨s, by simp [TemplateView.get_template_names, hov]⟩
    | none =>
      rcases h with h | h
      · exact absurd hov h
      · cases htn : v.template_name with
        | some t => exact ⟨t, by simp [TemplateView.get_template_names, hov, htn]⟩
        | none => exact absurd htn h
  · intro v h1 h2
    simp [RedirectView.get_url, h1, h2]
  · intro v h
    cases hov : v.get_url_ov with
    | some s => exact ⟨s, by simp [RedirectView.get_url, hov]⟩
    | none =>
      rcases h with h | h
      · exact absurd hov h
      · cases hu : v.url with
        | some u => exact ⟨u, by simp [RedirectView.get_url, hov, hu]⟩
        | none => exact absurd hu h
  · intro v h1 h2
    simp [ListView.get_object_list, h1, h2]
  · intro v h
    cases hov : v.get_object_list_ov with
    | some l => exact ⟨l, by simp [ListView.get_object_list, hov]⟩
    | none =>
      rcases h with h | h
      · exact absurd hov h
      · cases hm : v.model with
        | some m => exact ⟨m.query_all, by simp [ListView.get_object_list, hov, hm]⟩
        | none => exact absurd hm h
  · intro v h1
    simp [DetailView.get_object, h1]
  · intro v h
    cases hov : v.get_object_ov with
    | some o => exact ⟨o, by simp [DetailView.get_object, hov]⟩
    | none => exact absurd hov h
  · intro v h1 h2
    simp [FormView.get_success_url, h1, h2]
  · intro v h
    cases hov : v.get_success_url_ov with
    | some s => exact ⟨s, by simp [FormView.get_success_url, hov]⟩
    | none =>
      rcases h with h | h
      · exact absurd hov h
      · cases hu : v.success_url with
        | some u => exact ⟨u, by simp [FormView.get_success_url, hov, hu]⟩
        | none => exact absurd hu h

/-- Witness: concrete bare subclasses raise the configuration error and
concrete configured subclasses resolve successfully. -/
theorem config_error_iff_missing_override_wit :
    TemplateView.get_template_names ⟨⟨"BareTemplate", [], []⟩, none, none, []⟩ =
      .error (.improperlyConfigured
        ("BareTemplate" ++ " must define either `template_name` or `get_template_names()`")) ∧
    (∃ r, TemplateView.get_template_names
      ⟨⟨"GoodTemplate", [], []⟩, some "a.html", none, []⟩ = .ok r) ∧
    RedirectView.get_url ⟨⟨"BareRedirect", [], []⟩, none, none, none⟩ =
      .error (.improperlyConfigured
        ("BareRedirect" ++ " must define either `url` or `get_url()`")) ∧
    (∃ r, RedirectView.get_url ⟨⟨"GoodRedirect", [], []⟩, some "/u", none, none⟩ = .ok r) ∧
    ListView.get_object_list
      ⟨⟨⟨"BareList", [], []⟩, some "l.html", none, []⟩, none, none, "object_list"⟩ =
      .error (.improperlyConfigured
        ("BareList" ++ " must define either `model` or `get_object_list()`")) ∧
    (∃ r, ListView.get_object_list
      ⟨⟨⟨"GoodList", [], []⟩, some "l.html", none, []⟩, some ⟨[]⟩, none, "object_list"⟩ = .ok r) ∧
    DetailView.get_object
      ⟨⟨⟨"BareDetail", [], []⟩, some "d.html", none, []⟩, "object", none⟩ =
      .error (.improperlyConfigured ("BareDetail" ++ " must define `get_object()`")) ∧
    (∃ r, DetailView.get_object
      ⟨⟨⟨"GoodDetail", [], []⟩, some "d.html", none, []⟩, "object", some ⟨"o", 0⟩⟩ = .ok r) ∧
    FormView.get_success_url
      ⟨⟨⟨"BareForm", [], []⟩, some "f.html", none, []⟩, "form", ⟨[], true, none⟩,
        none, none, none, none, none, none⟩ =
      .error (.improperlyConfigured
        ("BareForm" ++ " must define either `success_url` or `get_success_url()`")) ∧
    (∃ r, FormView.get_success_url
      ⟨⟨⟨"GoodForm", [], []⟩, some "f.html", none, []⟩, "form", ⟨[], true, none⟩,
        some "/ok", none, none, none, none, none⟩ = .ok r) := by
  obtain ⟨h1, h2, h3, h4, h5, h6, h7, h8, h9, h10⟩ := config_error_iff_missing_override
  exact ⟨h1 _ rfl rfl, h2 _ (Or.inr (Option.some_ne_none _)),
    h3 _ rfl rfl, h4 _ (Or.inr (Option.some_ne_none _)),
    h5 _ rfl rfl, h6 _ (Or.inr (Option.some_ne_none _)),
    h7 _ rfl, h8 _ (Option.some_ne_none _),
    h9 _ rfl rfl, h10 _ (Or.inr (Option.some_ne_none _))⟩

/-- C5: `dispatch_request` first stores the request arguments on the
instance — both the pre-dispatch hook and the verb handler see the updated
instance — then returns the hook result when it is truthy and otherwise the
verb handler result; the base hook returns `None`, so by default normal
dispatch runs. -/
theorem dispatch_request_stores_then_dispatches (v : ViewBase)
    (hook : ViewBase → Option Response)
    (handler : ViewBase → Except Err (List Event × Response))
    (a : List String) (k : List (String × String)) :
    (∀ r, hook { v with args := a, kwargs := k } = some r →
      View.dispatch_request v hook handler a k = .ok ([], r)) ∧
    (hook { v with args := a, kwargs := k } = none →
      View.dispatch_request v hook handler a k = handler { v with args := a, kwargs := k }) ∧
    View.dispatch_request v View.dispatch handler a k =
      handler { v with args := a, kwargs := k } := by
  refine ⟨?_, ?_, ?_⟩
  · intro r h
    simp [View.dispatch_request, h]
  · intro h
    simp [View.dispatch_request, h]
  · simp [View.dispatch_request, View.dispatch]

/-- A verb handler that echoes the stored keyword arguments, used to observe
that `dispatch_request` updates the instance before dispatching. -/
def handlerEcho : ViewBase → Except Err (List Event × Response) :=
  fun w => .ok ([], Response.render "echo.html" [("kwargs", Val.kwargsVal w.kwargs)])

/-- Witness: a truthy hook result short-circuits, and under the base hook
the handler runs on the instance holding the new arguments. -/
theorem dispatch_request_stores_then_dispatches_wit :
    View.dispatch_request ⟨"Echo", [], []⟩ (fun _ => some (Response.redirect "/login"))
      handlerEcho ["x"] [("id", "1")] = .ok ([], Response.redirect "/login") ∧
    View.dispatch_request ⟨"Echo", [], []⟩ View.dispatch handlerEcho ["x"] [("id", "1")] =
      .ok ([], Response.render "echo.html" [("kwargs", Val.kwargsVal [("id", "1")])]) := by
  constructor
  · exact (dispatch_request_stores_then_dispatches ⟨"Echo", [], []⟩ _ handlerEcho
      ["x"] [("id", "1")]).1 _ rfl
  · have h := (dispatch_request_stores_then_dispatches ⟨"Echo", [], []⟩ View.dispatch
      handlerEcho ["x"] [("id", "1")]).2.2
    rw [h]
    rfl

/-- C6: for every `ListView` with a `model` defined and `get_object_list` not
overridden, the context passed to the renderer maps
`get_context_object_list_name()` to exactly `model.query.all()`, so every
fetched record is present in the context. -/
theorem ListView.get_context_contains_all_records (v : ListView) (t : String) (m : Model)
    (hm : v.model = some m) (hov : v.get_object_list_ov = none)
    (ht : v.toTemplateView.get_template_names = .ok t) :
    ∃ c, ListView.get v = .ok ([], Response.render t c) ∧
      dictLookup c v.get_context_object_list_name = some (Val.objListVal m.query_all) ∧
      ∀ o ∈ m.query_all, ∃ l, dictLookup c v.get_context_object_list_name =
        some (Val.objListVal l) ∧ o ∈ l := by
  refine ⟨dictInsert v.toTemplateView.get_default_context v.get_context_object_list_name
      (Val.objListVal m.query_all), ?_, ?_, ?_⟩
  · simp [ListView.get, ht, ListView.get_default_context, ListView.get_object_list, hov, hm]
    rfl
  · exact dictLookup_dictInsert_self _ _ _
  · intro o ho
    exact ⟨m.query_all, dictLookup_dictInsert_self _ _ _, ho⟩

/-- A concrete list view over a model with two records. -/
def courseList : ListView :=
  ⟨⟨⟨"CourseList", [], []⟩, some "courses.html", none, []⟩,
    some ⟨[⟨"algebra", 1⟩, ⟨"analysis", 1⟩]⟩, none, "object_list"⟩

/-- Witness: the concrete list view renders with the full fetched collection
in its context. -/
theorem ListView.get_context_contains_all_records_wit :
    ∃ c, ListView.get courseList = .ok ([], Response.render "courses.html" c) ∧
      dictLookup c courseList.get_context_object_list_name =
        some (Val.objListVal [⟨"algebra", 1⟩, ⟨"analysis", 1⟩]) := by
  obtain ⟨c, hc1, hc2, _⟩ := ListView.get_context_contains_all_records courseList
    "courses.html" ⟨[⟨"algebra", 1⟩, ⟨"analysis", 1⟩]⟩ rfl rfl rfl
  exact ⟨c, hc1, hc2⟩

/-- A template view whose request carried the positional argument "alpha". -/
def pageViewA : TemplateView := ⟨⟨"PageView", ["alpha"], []⟩, some "page.html", none, []⟩

/-- The same template view with the positional argument "beta" instead. -/
def pageViewB : TemplateView := ⟨⟨"PageView", ["beta"], []⟩, some "page.html", none, []⟩

/-- C7 counterexample: two template views that differ only in their stored
positional URL arguments produce identical GET responses, and the render
context holds exactly the view and the keyword arguments — the positional
arguments never reach the context, so the context is not built from them. -/
theorem templateView_context_omits_positional_args :
    pageViewA.args ≠ pageViewB.args ∧
    TemplateView.get pageViewA = TemplateView.get pageViewB ∧
    TemplateView.get pageViewA = .ok ([], Response.render "page.html"
      [("view", Val.view), ("kwargs", Val.kwargsVal [])]) := by
  refine ⟨?_, rfl, rfl⟩
  decide

/-- C7 (amended): for every `TemplateView` with a resolvable template name,
GET renders that template with a context built from the view instance itself
(under key "view"), the captured keyword URL arguments (under key "kwargs";
positional arguments are stored on the instance but not added to the
context), and the subclass pairs from `get_context()`, with subclass pairs
taking precedence on key collision. -/
theorem TemplateView.get_renders_view_kwargs_context (v : TemplateView) (t : String)
    (ht : v.get_template_names = .ok t)
    (hnd : (v.get_context.map Prod.fst).Nodup) :
    ∃ c, TemplateView.get v = .ok ([], Response.render t c) ∧
      c = dictUpdate [("view", Val.view), ("kwargs", Val.kwargsVal v.kwargs)] v.get_context ∧
      ("view" ∉ v.get_context.map Prod.fst → dictLookup c "view" = some Val.view) ∧
      ("kwargs" ∉ v.get_context.map Prod.fst →
        dictLookup c "kwargs" = some (Val.kwargsVal v.kwargs)) ∧
      (∀ p ∈ v.get_context, dictLookup c p.1 = some p.2) := by
  refine ⟨v.get_default_context, ?_, rfl, ?_, ?_, ?_⟩
  · simp [TemplateView.get, ht]
    rfl
  · intro h
    rw [show v.get_default_context =
        dictUpdate [("view", Val.view), ("kwargs", Val.kwargsVal v.kwargs)] v.get_context
      from rfl]
    rw [dictLookup_dictUpdate_not_mem _ _ _ h]
    simp [dictLookup]
  · intro h
    rw [show v.get_default_context =
        dictUpdate [("view", Val.view), ("kwargs", Val.kwargsVal v.kwargs)] v.get_context
      from rfl]
    rw [dictLookup_dictUpdate_not_mem _ _ _ h]
    simp [dictLookup]
  · intro p hp
    exact dictLookup_dictUpdate_mem _ _ _ hnd hp

/-- A template view with keyword arguments and a subclass context that
shadows the "kwargs" key. -/
def pageViewC : TemplateView :=
  ⟨⟨"PageView", ["alpha"], [("id", "7")]⟩, some "page.html", none,
    [("extra", Val.str "x"), ("kwargs", Val.str "shadow")]⟩

/-- Witness: the concrete template view renders its context from the view,
the keyword arguments and the subclass pairs. -/
theorem TemplateView.get_renders_view_kwargs_context_wit :
    ∃ c, TemplateView.get pageViewC = .ok ([], Response.render "page.html" c) ∧
      c = dictUpdate [("view", Val.view), ("kwargs", Val.kwargsVal pageViewC.kwargs)]
        pageViewC.get_context ∧
      ("view" ∉ pageViewC.get_context.map Prod.fst → dictLookup c "view" = some Val.view) ∧
      ("kwargs" ∉ pageViewC.get_context.map Prod.fst →
        dictLookup c "kwargs" = some (Val.kwargsVal pageViewC.kwargs)) ∧
      (∀ p ∈ pageViewC.get_context, dictLookup c p.1 = some p.2) :=
  TemplateView.get_renders_view_kwargs_context pageViewC "page.html" rfl (by decide)

/-- C8: a `CreateView` (respectively `DeleteView`) whose form validates and
whose `form_valid()` hook returns no result saves (respectively deletes) the
record bound to the form on the session returned by `get_db_session()`
before the redirect to the success URL is issued, and afterwards
`self.object` holds the saved record (respectively `None`). -/
theorem modelFormView_post_persists_then_redirects :
    (∀ (v : CreateView) (o w : Obj) (u : String),
      v.form_valid_hook = none →
      v.get_object = .ok o →
      (v.form_class_obj o).validate_on_submit = true →
      (v.form_class_obj o).obj = some w →
      v.get_success_url = .ok u →
      ∃ fl, CreateView.post v = .ok
        ({ v with form := some (v.form_class_obj o), object := some w },
          fl ++ [Event.save w w.query_session, Event.redirected u],
          Response.redirect u)) ∧
    (∀ (v : DeleteView) (o w : Obj) (u : String),
      v.form_valid_hook = none →
      v.get_object = .ok o →
      (v.form_class_obj o).validate_on_submit = true →
      (v.form_class_obj o).obj = some w →
      v.get_success_url = .ok u →
      ∃ fl, DeleteView.post v = .ok
        ({ v with form := some (v.form_class_obj o), object := none },
          fl ++ [Event.delete w w.query_session, Event.redirected u],
          Response.redirect u)) := by
  constructor
  · intro v o w u hhook hobj hval hfobj hurl
    refine ⟨FlashMessageMixin.flash_message "success" v.success_message, ?_⟩
    have hform : v.get_form = .ok (v.form_class_obj o) := by
      simp [CreateView.get_form, hobj]
      rfl
    have hurl2 : ({ v with form_valid_hook := none, form := some (v.form_class_obj o), object := some w } : CreateView).get_success_url = .ok u := hurl
    simp [CreateView.post, hform, hval, hhook, CreateView.form_valid_process,
      CreateView.get_db_session, hfobj, hurl2, except_ok_bind]
  · intro v o w u hhook hobj hval hfobj hurl
    refine ⟨FlashMessageMixin.flash_message "success" v.success_message, ?_⟩
    have hform : v.get_form = .ok (v.form_class_obj o) := by
      simp [DeleteView.get_form, hobj]
      rfl
    have hurl2 : ({ v with form_valid_hook := none, form := some (v.form_class_obj o), object := none } : DeleteView).get_success_url = .ok u := hurl
    simp [DeleteView.post, hform, hval, hhook, DeleteView.form_valid_process,
      DeleteView.get_db_session, hfobj, hurl2, except_ok_bind]

/-- A concrete create view bound to an existing record. -/
def courseAdd : CreateView :=
  ⟨"CourseAdd", [], [], some "course_form.html", none, [], "form", some "/courses",
    none, none, none, none, "object", some ⟨"course", 3⟩,
    fun o => ⟨[("name", "Algebra")], true, some o⟩, none, none⟩

/-- A concrete delete view bound to an existing record. -/
def courseDelete : DeleteView :=
  ⟨"CourseDelete", [], [], some "course_delete.html", none, [], "form", some "/courses",
    none, none, none, none, "object", some ⟨"course", 3⟩,
    fun o => ⟨[], true, some o⟩, none, none⟩

/-- Witness: the concrete create view saves its record and redirects; the
concrete delete view deletes its record and redirects. -/
theorem modelFormView_post_persists_then_redirects_wit :
    (∃ fl, CreateView.post courseAdd = .ok
      ({ courseAdd with form := some (courseAdd.form_class_obj ⟨"course", 3⟩), object := some ⟨"course", 3⟩ },
        fl ++ [Event.save ⟨"course", 3⟩ 3, Event.redirected "/courses"],
        Response.redirect "/courses")) ∧
    (∃ fl, DeleteView.post courseDelete = .ok
      ({ courseDelete with form := some (courseDelete.form_class_obj ⟨"course", 3⟩), object := none },
        fl ++ [Event.delete ⟨"course", 3⟩ 3, Event.redirected "/courses"],
        Response.redirect "/courses")) :=
  ⟨modelFormView_post_persists_then_redirects.1 courseAdd ⟨"course", 3⟩ ⟨"course", 3⟩
      "/courses" rfl rfl rfl rfl rfl,
    modelFormView_post_persists_then_redirects.2 courseDelete ⟨"course", 3⟩ ⟨"course", 3⟩
      "/courses" rfl rfl rfl rfl rfl⟩
